import Mathlib

/-!
Verification of the conduct-point dashboard core (`src/main.py`).

The embedding models the data pipeline of `load_data` and the query masks
built in `main`:
  * header handling: `values[0]` stripped cell-wise, the all-blank check,
    and the mandatory-column check for the date column (`날짜`, `DATE_COL`)
    and the student-id column (`학번`, `STU_ID_COL`);
  * per-row date parsing with `pd.to_datetime(..., errors="coerce")`
    followed by `dropna(subset=[DATE_COL])` (rows whose cell does not parse
    are removed);
  * student-id stripping and the grade / class extraction `str[0]` / `str[1]`
    (single-character strings, `None`-like marker when out of range);
  * the derived columns `월` (month), `일` (day), `date_only`;
  * the day-exact mask with optional `시간대` (time-of-day) filtering and the
    `sort_values(DATE_COL)` step;
  * the this-week range mask (inclusive on both ends) combined with the
    grade/class mask.

`pd.to_datetime` is modelled on the formats the development exercises:
ISO `YYYY-MM-DD` and slash `M/D/YYYY` (month first, as pandas parses
US-style slash dates); every other string coerces to the "no value"
result, as pandas coerces unparseable cells to `NaT`.
-/

/-- Column-name constants from the source (`날짜` = date column). -/
def DATE_COL : String := "날짜"

/-- `학번` = student-id column. -/
def STU_ID_COL : String := "학번"

/-- `시간대` = optional time-of-day column. -/
def TIME_COL : String := "시간대"

/-- Split a character list on a separator, keeping empty chunks —
models the chunking done by a format-specific date parse. -/
def splitOnChar (sep : Char) : List Char → List (List Char)
  | [] => [[]]
  | c :: cs =>
    match splitOnChar sep cs with
    | [] => [[]]
    | w :: ws => if c = sep then [] :: w :: ws else (c :: w) :: ws

/-- Accumulate a digit list into a natural number (most significant first). -/
def natOfDigits : List Char → Nat → Nat
  | [], acc => acc
  | c :: cs, acc => natOfDigits cs (acc * 10 + (c.toNat - 48))

/-- Parse a non-empty all-digit chunk; anything else is no value. -/
def parseNatChars (cs : List Char) : Option Nat :=
  if !cs.isEmpty && cs.all Char.isDigit then some (natOfDigits cs 0) else none

/-- Strip leading and trailing whitespace, as Python `str.strip()`. -/
def stripChars (cs : List Char) : List Char :=
  ((cs.dropWhile Char.isWhitespace).reverse.dropWhile Char.isWhitespace).reverse

/-- String-level strip, as `.str.strip()` / `h.strip()` in the source. -/
def pyStrip (s : String) : String := String.mk (stripChars s.data)

/-- Lexicographic (code-point) comparison of strings as character lists —
the order Python and pandas use when strings are compared directly. -/
def lexLtChars : List Char → List Char → Bool
  | [], [] => false
  | [], _ :: _ => true
  | _ :: _, [] => false
  | a :: as, b :: bs => if a < b then true else if b < a then false else lexLtChars as bs

/-- A resolved calendar date (pandas `Timestamp`, time-of-day not modelled). -/
structure Date where
  year : Nat
  month : Nat
  day : Nat
deriving DecidableEq

/-- Packing that orders valid calendar dates chronologically
(lexicographic on year, month, day; months are < 100, days are < 100
for every date the parser produces). -/
def Date.key (d : Date) : Nat := d.year * 10000 + d.month * 100 + d.day

/-- Chronological comparison of dates, as pandas `Timestamp` ordering. -/
def Date.le (a b : Date) : Bool := decide (a.key ≤ b.key)

/-- Days in a month, Gregorian rules — `pd.to_datetime` rejects
out-of-range days such as `2024-02-30`. -/
def daysInMonth (y m : Nat) : Nat :=
  if m = 2 then (if (y % 4 = 0 ∧ y % 100 ≠ 0) ∨ y % 400 = 0 then 29 else 28)
  else if m = 4 ∨ m = 6 ∨ m = 9 ∨ m = 11 then 30 else 31

/-- A (year, month, day) triple names a real calendar date. -/
def validDate (y m d : Nat) : Bool :=
  decide (1 ≤ m ∧ m ≤ 12 ∧ 1 ≤ d ∧ d ≤ daysInMonth y m)

/-- Assemble a date from year/month/day chunks, rejecting invalid dates. -/
def parseYMD (ys ms ds : List Char) : Option Date :=
  match parseNatChars ys, parseNatChars ms, parseNatChars ds with
  | some y, some m, some d => if validDate y m d then some ⟨y, m, d⟩ else none
  | _, _, _ => none

/-- Model of `pd.to_datetime(cell, errors="coerce")` restricted to the
formats exercised here: ISO `YYYY-MM-DD` (padded or not, as `%Y-%m-%d`
strptime), and `M/D/YYYY` with the month first (pandas' default for
ambiguous slash dates, `%m/%d/%Y`). Any other cell — the empty string,
Korean day text such as `"4월 11일"`, or free text — coerces to `none`
(pandas `NaT`). The model parses per cell, whereas pandas 2.x infers one
format from the column's first non-empty cell and coerces cells not
matching it; the two regimes agree on every column whose non-empty
cells each either match the single format its first non-empty cell
carries (padding variants included) or match neither format, and every
concrete grid evaluated below is of that shape. Theorems that
hypothesize an unparseable cell (`parseDate c = none`, failing both
formats) are also unaffected: such a cell coerces to `NaT` under either
regime. -/
def parseDate (s : String) : Option Date :=
  match splitOnChar '-' s.data with
  | [ys, ms, ds] => parseYMD ys ms ds
  | _ =>
    match splitOnChar '/' s.data with
    | [ms, ds, ys] => parseYMD ys ms ds
    | _ => none

/-- Positional cell lookup by (trimmed) header label, as `df[col]` row-wise;
a label not in the header or a short row yields the empty cell. -/
def getCol (header row : List String) (col : String) : String :=
  match header.findIdx? (fun h => h == col) with
  | some i => row.getD i ""
  | none => ""

/-- One normalized row of the built DataFrame: the original cells plus the
overwritten/derived columns produced by `load_data`
(parsed `날짜`, stripped `학번`, `학년`/`반` as optional one-character
strings, and the derived `월`, `일`, `date_only` columns). -/
structure Record where
  raw : List String
  date : Date
  studentId : String
  grade : Option String
  classNo : Option String
  month : Nat
  day : Nat
  dateOnly : Date
deriving DecidableEq

/-- A built table: the trimmed header and the retained rows, in sheet order. -/
structure Table where
  header : List String
  records : List Record
deriving DecidableEq

/-- Outcome of `load_data`: the source signals the first three cases with a
`st.warning` / `st.warning` / `st.error` message and returns an empty
DataFrame; otherwise it returns the built DataFrame. -/
inductive BuildResult where
  | noValues : BuildResult
  | blankHeader : BuildResult
  | missingColumn (required : List String) (header : List String) : BuildResult
  | table (t : Table) : BuildResult
deriving DecidableEq

/-- Per-row processing of `load_data`: parse the date cell
(`pd.to_datetime`, row dropped via `dropna` when it coerces to `NaT`),
strip the student id, take its first and second characters as the grade
and class columns (`.str[0]` / `.str[1]`, absent when out of range), and
derive `월`/`일`/`date_only` from the parsed date. -/
def mkRecord (header row : List String) : Option Record :=
  match parseDate (getCol header row DATE_COL) with
  | none => none
  | some d =>
    let sid := pyStrip (getCol header row STU_ID_COL)
    some { raw := row, date := d, studentId := sid,
           grade := (sid.data[0]?).map (fun c => String.mk [c]),
           classNo := (sid.data[1]?).map (fun c => String.mk [c]),
           month := d.month, day := d.day, dateOnly := d }

/-- `load_data` over the fetched cell grid `values`: empty grid and
all-blank header produce the two warning results; a header missing a
mandatory column produces the error result naming the required columns
and the current header; otherwise each data row is parsed and rows whose
date cell does not parse are dropped. -/
def load_data (values : List (List String)) : BuildResult :=
  match values with
  | [] => .noValues
  | hdrRow :: dataRows =>
    let header := hdrRow.map pyStrip
    if header.all (fun h => h == "") then .blankHeader
    else if DATE_COL ∈ header ∧ STU_ID_COL ∈ header then
      .table ⟨header, dataRows.filterMap (mkRecord header)⟩
    else .missingColumn [DATE_COL, STU_ID_COL] header

/-- The grade/class mask of `main`:
`(df[GRADE_COL] == sel_grade) & (df[CLASS_COL] == sel_class)`.
An absent grade or class (pandas `NaN`) never equals a selected value. -/
def classMask (r : Record) (g c : String) : Bool :=
  r.grade == some g && r.classNo == some c

/-- Comparison by parsed date, the key of `sort_values(DATE_COL)`. -/
def recordDateLe (a b : Record) : Prop := Date.le a.date b.date = true

instance : DecidableRel recordDateLe :=
  fun a b => inferInstanceAs (Decidable (Date.le a.date b.date = true))

instance : IsTotal Record recordDateLe :=
  ⟨fun a b => by
    simp only [recordDateLe, Date.le, decide_eq_true_eq]
    exact Nat.le_total a.date.key b.date.key⟩

instance : IsTrans Record recordDateLe :=
  ⟨fun a b c hab hbc => by
    simp only [recordDateLe, Date.le, decide_eq_true_eq] at *
    exact Nat.le_trans hab hbc⟩

/-- The day-exact mask of `main`:
`(df["월"] == sel_month) & (df["일"] == sel_day)`, restricted to the
morning (`"아침"`) entries when the `시간대` column exists. -/
def exactDayFilter (t : Table) (m d : Nat) : List Record :=
  t.records.filter (fun r =>
    r.month == m && r.day == d &&
    (if TIME_COL ∈ t.header then getCol t.header r.raw TIME_COL == "아침" else true))

/-- The day view of `main`: the day-exact mask followed by
`sort_values(DATE_COL)` — a sort on the parsed date column. -/
def byExactDay (t : Table) (m d : Nat) : List Record :=
  List.insertionSort recordDateLe (exactDayFilter t m d)

/-- The week view of `main` (`df_week`): inclusive range on `date_only`
combined with the grade/class mask. -/
def byDateRange (t : Table) (s e : Date) (g c : String) : List Record :=
  t.records.filter (fun r =>
    Date.le s r.dateOnly && Date.le r.dateOnly e && classMask r g c)

/-- Identifier Decomposer as implemented by the source: strip the
identifier, then take its first and second characters as one-character
strings (`.str[0]` / `.str[1]`), each absent when the string is too
short. -/
def decompose (s : String) : List (Option String) :=
  let t := pyStrip s
  [(t.data[0]?).map (fun c => String.mk [c]),
   (t.data[1]?).map (fun c => String.mk [c])]

/-- Identifier decomposition as the spec words it, for comparison with
`decompose`: trim, take the first two characters as single-character
strings, and pad missing trailing entries with the no-value marker so
the output always has exactly two entries. -/
def specDecompose (s : String) : List (Option String) :=
  let t := pyStrip s
  (t.data.take 2).map (fun c => some (String.mk [c]))
    ++ List.replicate (2 - t.data.length) none

/-- Forward-fill of the date column as the spec words it, for comparison
with `load_data` (which has no such pass): scanning data rows top to
bottom, an empty date cell is replaced with the nearest preceding
non-empty cell's raw text; the first row's cell stays empty if blank. -/
def ffillRows (i : Nat) (prev : String) : List (List String) → List (List String)
  | [] => []
  | row :: rest =>
    let cell := row.getD i ""
    let cell' := if cell = "" then prev else cell
    row.set i cell' :: ffillRows i cell' rest

/-- Apply the spec's forward-fill pass to the date column of a cell grid. -/
def ffillDateColumn (values : List (List String)) : List (List String) :=
  match values with
  | [] => []
  | hdrRow :: dataRows =>
    match (hdrRow.map pyStrip).findIdx? (fun h => h == DATE_COL) with
    | none => hdrRow :: dataRows
    | some i => hdrRow :: ffillRows i "" dataRows

/-- The digit-suffix fallback as the spec words it, for comparison with
`load_data` (which has no such fallback): strip trailing non-digit
characters, then read the trailing run of at most two digits as the
day of month. -/
def specDigitSuffix (s : String) : Option Nat :=
  let afterJunk := s.data.reverse.dropWhile (fun c => !c.isDigit)
  let ds := (afterJunk.takeWhile Char.isDigit).take 2
  if ds.isEmpty then none else some (natOfDigits ds.reverse 0)

/-- Inversion for a successful build: the input had a header row, the
table's header is the stripped header row, and the records are the
per-row processing of the data rows. -/
theorem load_data_table_inv {values : List (List String)} {t : Table}
    (h : load_data values = BuildResult.table t) :
    ∃ hdrRow dataRows, values = hdrRow :: dataRows
      ∧ t.header = hdrRow.map pyStrip
      ∧ t.records = dataRows.filterMap (mkRecord (hdrRow.map pyStrip)) := by
  cases values with
  | nil => exact absurd h (by simp [load_data])
  | cons hdrRow dataRows =>
    simp only [load_data] at h
    split at h
    · exact absurd h (by simp)
    · split at h
      · injection h with h'
        subst h'
        exact ⟨hdrRow, dataRows, rfl, rfl, rfl⟩
      · exact absurd h (by simp)

/-- Inversion for per-row processing: a produced record keeps the original
cells, its date is the successful parse of its own date cell, its student
id is the stripped id cell, grade/class are its first/second characters,
and the derived columns agree with the parsed date. -/
theorem mkRecord_some_inv {header row : List String} {r : Record}
    (h : mkRecord header row = some r) :
    r.raw = row
    ∧ parseDate (getCol header row DATE_COL) = some r.date
    ∧ r.studentId = pyStrip (getCol header row STU_ID_COL)
    ∧ r.grade = (r.studentId.data[0]?).map (fun ch => String.mk [ch])
    ∧ r.classNo = (r.studentId.data[1]?).map (fun ch => String.mk [ch])
    ∧ r.month = r.date.month ∧ r.day = r.date.day ∧ r.dateOnly = r.date := by
  unfold mkRecord at h
  cases hp : parseDate (getCol header row DATE_COL) with
  | none => rw [hp] at h; exact Option.noConfusion h
  | some d =>
    rw [hp] at h
    injection h with h'
    subst h'
    simp

/-- Claim C5 (confirmed): identifier decomposition first strips the
identifier and returns exactly two entries — the first and the second
character of the stripped string, each as a single-character string —
padding missing trailing entries with the no-value marker when the
stripped identifier has fewer than two characters, never failing.
Stated as equality between the source's decomposition (`.str[0]` /
`.str[1]` on the stripped id) and the decomposition worded as in the
spec (take the first two characters, pad to length two). -/
theorem c5_decompose_spec_equiv (s : String) : decompose s = specDecompose s := by
  simp only [decompose, specDecompose]
  generalize (pyStrip s).data = cs
  rcases cs with _ | ⟨a, _ | ⟨b, l⟩⟩ <;> simp [List.replicate]

/-- Claim C6 (confirmed): when the trimmed header is not entirely blank
but lacks a mandatory column (the date column or the student-id column),
`load_data` produces the structured `missingColumn` failure carrying the
mandatory column names — which include whichever column is missing — and
the current header; by constructor disjointness no (partial) table is
returned. -/
theorem c6_missing_column_failure (hdrRow : List String) (dataRows : List (List String))
    (hblank : (hdrRow.map pyStrip).all (fun h => h == "") = false)
    (hmiss : ¬(DATE_COL ∈ hdrRow.map pyStrip ∧ STU_ID_COL ∈ hdrRow.map pyStrip)) :
    load_data (hdrRow :: dataRows) =
      BuildResult.missingColumn [DATE_COL, STU_ID_COL] (hdrRow.map pyStrip) := by
  simp only [load_data]
  rw [if_neg (by simp [hblank]), if_neg hmiss]

/-- Witness for C6: the spec's own example shape — a header with the date
column but without the student-id column yields the `missingColumn`
failure naming the mandatory columns, not a table. -/
theorem c6_missing_column_failure_witness :
    load_data [["날짜", "이름"], ["2024-03-01", "kim"]] =
      BuildResult.missingColumn [DATE_COL, STU_ID_COL] (["날짜", "이름"].map pyStrip) :=
  c6_missing_column_failure ["날짜", "이름"] [["2024-03-01", "kim"]] (by decide) (by decide)

/-- Claim C7 (corrected, amended part): a completely empty cell grid and
an all-blank header produce the two distinct warning outcomes (never the
`missingColumn` error), and an empty data-row set whose header carries
the mandatory columns produces an empty table — but header validity
matters: see the counterexample for the missing-column case. -/
theorem c7_empty_table_cases (hdrRow : List String) (dataRows : List (List String)) :
    load_data [] = BuildResult.noValues
    ∧ ((hdrRow.map pyStrip).all (fun h => h == "") = true →
        load_data (hdrRow :: dataRows) = BuildResult.blankHeader)
    ∧ (DATE_COL ∈ hdrRow.map pyStrip → STU_ID_COL ∈ hdrRow.map pyStrip →
        load_data [hdrRow] = BuildResult.table ⟨hdrRow.map pyStrip, []⟩) := by
  refine ⟨rfl, fun hb => by simp [load_data, hb], fun h1 h2 => ?_⟩
  have hblank : (hdrRow.map pyStrip).all (fun h => h == "") = false := by
    cases hx : (hdrRow.map pyStrip).all (fun h => h == "") with
    | false => rfl
    | true => exact absurd (List.all_eq_true.mp hx _ h1) (by decide)
  simp [load_data, hblank, h1, h2]

/-- Witness for C7's amended claim: the empty grid, an all-blank header,
and a mandatory-column header with zero data rows, each at a concrete
input. -/
theorem c7_empty_table_cases_witness :
    load_data [] = BuildResult.noValues
    ∧ load_data [[""]] = BuildResult.blankHeader
    ∧ load_data [["날짜", "학번"]] = BuildResult.table ⟨["날짜", "학번"].map pyStrip, []⟩ := by
  refine ⟨(c7_empty_table_cases [] []).1, ?_, ?_⟩
  · exact (c7_empty_table_cases [""] []).2.1 (by decide)
  · exact (c7_empty_table_cases ["날짜", "학번"] []).2.2 (by decide) (by decide)

/-- Counterexample for C7: with an empty data-row set but a header
missing the mandatory student-id column, `load_data` returns the
`missingColumn` error — not an empty-table outcome — contradicting
"returns an explicit EmptyTable result ... never an error ... regardless
of header validity". -/
theorem c7_empty_rows_counterexample :
    load_data [["날짜", "이름"]] =
      BuildResult.missingColumn ["날짜", "학번"] ["날짜", "이름"]
    ∧ BuildResult.missingColumn ["날짜", "학번"] ["날짜", "이름"] ≠ BuildResult.noValues
    ∧ BuildResult.missingColumn ["날짜", "학번"] ["날짜", "이름"] ≠ BuildResult.blankHeader := by
  decide

/-- Counterexample for C1: on the spec's own example column the build has
no forward-fill pass. Parsing the grid as-is retains only the two rows
with non-empty date cells, while the spec-worded forward-filled pipeline
would retain all four rows — so the two pipelines differ, and the
pre-parse date column is not the filled sequence the claim states. -/
theorem c1_no_ffill_counterexample :
    load_data [["날짜", "학번"], ["2024-03-01", "2411"], ["", "2412"], ["", "2413"],
               ["2024-03-02", "2414"]]
      = BuildResult.table ⟨["날짜", "학번"],
          [⟨["2024-03-01", "2411"], ⟨2024, 3, 1⟩, "2411", some "2", some "4", 3, 1, ⟨2024, 3, 1⟩⟩,
           ⟨["2024-03-02", "2414"], ⟨2024, 3, 2⟩, "2414", some "2", some "4", 3, 2, ⟨2024, 3, 2⟩⟩]⟩
    ∧ load_data (ffillDateColumn [["날짜", "학번"], ["2024-03-01", "2411"], ["", "2412"],
                 ["", "2413"], ["2024-03-02", "2414"]])
      = BuildResult.table ⟨["날짜", "학번"],
          [⟨["2024-03-01", "2411"], ⟨2024, 3, 1⟩, "2411", some "2", some "4", 3, 1, ⟨2024, 3, 1⟩⟩,
           ⟨["2024-03-01", "2412"], ⟨2024, 3, 1⟩, "2412", some "2", some "4", 3, 1, ⟨2024, 3, 1⟩⟩,
           ⟨["2024-03-01", "2413"], ⟨2024, 3, 1⟩, "2413", some "2", some "4", 3, 1, ⟨2024, 3, 1⟩⟩,
           ⟨["2024-03-02", "2414"], ⟨2024, 3, 2⟩, "2414", some "2", some "4", 3, 2, ⟨2024, 3, 2⟩⟩]⟩
    ∧ load_data [["날짜", "학번"], ["2024-03-01", "2411"], ["", "2412"], ["", "2413"],
                 ["2024-03-02", "2414"]]
      ≠ load_data (ffillDateColumn [["날짜", "학번"], ["2024-03-01", "2411"], ["", "2412"],
                   ["", "2413"], ["2024-03-02", "2414"]]) := by
  decide

/-- Claim C1 (corrected, amended part): no forward-fill is applied to the
date column — every retained record comes from one of the original data
rows unchanged, its date is the parse of that row's own date cell, and
that cell is necessarily non-empty (an empty cell parses to nothing and
its row is dropped rather than inheriting the previous date). -/
theorem c1_records_use_own_cell (hdrRow : List String) (dataRows : List (List String))
    (t : Table) (r : Record)
    (ht : load_data (hdrRow :: dataRows) = BuildResult.table t) (hr : r ∈ t.records) :
    r.raw ∈ dataRows
    ∧ parseDate (getCol t.header r.raw DATE_COL) = some r.date
    ∧ getCol t.header r.raw DATE_COL ≠ "" := by
  obtain ⟨hdr2, rows2, heq, hh, hrecs⟩ := load_data_table_inv ht
  injection heq with e1 e2
  subst e1; subst e2
  rw [hrecs] at hr
  obtain ⟨row, hrow, hm⟩ := List.mem_filterMap.mp hr
  obtain ⟨hraw, hparse, -⟩ := mkRecord_some_inv hm
  subst hraw
  rw [hh]
  refine ⟨hrow, hparse, fun hcell => ?_⟩
  rw [hcell] at hparse
  rw [show parseDate "" = none from by decide] at hparse
  exact Option.noConfusion hparse

/-- Witness for C1's amended claim, at the concrete grid of the
counterexample: the first retained record is the first data row with its
own parsed, non-empty cell. -/
theorem c1_records_use_own_cell_witness :
    (["2024-03-01", "2411"] ∈ [["2024-03-01", "2411"], ["", "2412"], ["", "2413"],
        ["2024-03-02", "2414"]])
    ∧ parseDate (getCol (Table.mk ["날짜", "학번"]
        [⟨["2024-03-01", "2411"], ⟨2024, 3, 1⟩, "2411", some "2", some "4", 3, 1, ⟨2024, 3, 1⟩⟩,
         ⟨["2024-03-02", "2414"], ⟨2024, 3, 2⟩, "2414", some "2", some "4", 3, 2, ⟨2024, 3, 2⟩⟩]).header
        ["2024-03-01", "2411"] DATE_COL)
      = some ⟨2024, 3, 1⟩
    ∧ getCol (Table.mk ["날짜", "학번"]
        [⟨["2024-03-01", "2411"], ⟨2024, 3, 1⟩, "2411", some "2", some "4", 3, 1, ⟨2024, 3, 1⟩⟩,
         ⟨["2024-03-02", "2414"], ⟨2024, 3, 2⟩, "2414", some "2", some "4", 3, 2, ⟨2024, 3, 2⟩⟩]).header
        ["2024-03-01", "2411"] DATE_COL ≠ "" :=
  c1_records_use_own_cell ["날짜", "학번"]
    [["2024-03-01", "2411"], ["", "2412"], ["", "2413"], ["2024-03-02", "2414"]]
    (Table.mk ["날짜", "학번"]
      [⟨["2024-03-01", "2411"], ⟨2024, 3, 1⟩, "2411", some "2", some "4", 3, 1, ⟨2024, 3, 1⟩⟩,
       ⟨["2024-03-02", "2414"], ⟨2024, 3, 2⟩, "2414", some "2", some "4", 3, 2, ⟨2024, 3, 2⟩⟩])
    ⟨["2024-03-01", "2411"], ⟨2024, 3, 1⟩, "2411", some "2", some "4", 3, 1, ⟨2024, 3, 1⟩⟩
    (by decide) (by decide)

/-- Counterexample for C2: the spec's own example cell. The spec-worded
digit-suffix extraction does yield day 11 for `"4월 11일"`, but the code
has no such fallback: the full-date parse coerces the cell to no value
and the row is dropped, so the built table holds no record at all — in
particular none with day-of-month 11 and an absent canonical date. -/
theorem c2_digit_suffix_counterexample :
    specDigitSuffix "4월 11일" = some 11
    ∧ parseDate "4월 11일" = none
    ∧ load_data [["날짜", "학번"], ["4월 11일", "2414"]]
        = BuildResult.table ⟨["날짜", "학번"], []⟩ := by
  decide

/-- Claim C2 (corrected, amended part): there is no digit-suffix
fallback — a single-row grid whose date cell fails the full-date parse
builds to a table with no records, whatever the identifier cell holds. -/
theorem c2_unparsed_row_dropped (c id : String) (h : parseDate c = none) :
    load_data [[DATE_COL, STU_ID_COL], [c, id]]
      = BuildResult.table ⟨[DATE_COL, STU_ID_COL], []⟩ := by
  have hidx : ([DATE_COL, STU_ID_COL] : List String).findIdx? (fun x => x == DATE_COL)
      = some 0 := by decide
  have hgc : getCol [DATE_COL, STU_ID_COL] [c, id] DATE_COL = c := by
    simp [getCol, hidx]
  have hm : mkRecord [DATE_COL, STU_ID_COL] [c, id] = none := by
    unfold mkRecord
    rw [hgc, h]
  have hs : ([DATE_COL, STU_ID_COL] : List String).map pyStrip = [DATE_COL, STU_ID_COL] := by
    decide
  simp only [load_data, hs]
  rw [if_neg (by decide), if_pos (by decide)]
  simp [hm]

/-- Witness for C2's amended claim at the spec's example cell. -/
theorem c2_unparsed_row_dropped_witness :
    parseDate "4월 11일" = none
    ∧ load_data [[DATE_COL, STU_ID_COL], ["4월 11일", "2414"]]
        = BuildResult.table ⟨[DATE_COL, STU_ID_COL], []⟩ :=
  ⟨by decide, c2_unparsed_row_dropped "4월 11일" "2414" (by decide)⟩

/-- Counterexample for C3: a row whose date cannot be normalized is not
retained in the built table — the build of a grid whose only data row
has the unparseable date cell `"notadate"` returns a table with no
records, contradicting "the row is retained in the built Table". -/
theorem c3_unresolved_retained_counterexample :
    load_data [["날짜", "학번"], ["notadate", "2414"]]
      = BuildResult.table ⟨["날짜", "학번"], []⟩ := by
  decide

/-- Claim C3 (corrected, amended part): a data row whose date cell fails
to parse is dropped from the built table — no retained record's raw
cells are that row, so it appears in no view — and such rows never
abort the build, which still returns a table result (the witness and the
counterexample both exhibit such builds completing). Nothing is asserted
about the remaining rows, whose parsing pandas couples to the column's
other cells through column-level format inference. -/
theorem c3_unresolved_row_dropped (hdrRow : List String) (dataRows : List (List String))
    (row : List String) (t : Table)
    (hp : parseDate (getCol (hdrRow.map pyStrip) row DATE_COL) = none)
    (ht : load_data (hdrRow :: dataRows) = BuildResult.table t) :
    ∀ r ∈ t.records, r.raw ≠ row := by
  intro r hr hraw
  obtain ⟨hdr2, rows2, heq, -, hrecs⟩ := load_data_table_inv ht
  injection heq with e1 e2
  subst e1; subst e2
  rw [hrecs] at hr
  obtain ⟨row2, -, hm⟩ := List.mem_filterMap.mp hr
  obtain ⟨hraw2, hparse, -⟩ := mkRecord_some_inv hm
  have e : row2 = row := hraw2.symm.trans hraw
  rw [e, hp] at hparse
  exact Option.noConfusion hparse

/-- Witness for C3's amended claim: in the completed build of a grid
holding one valid row and the `"notadate"` row, the retained record is
not the `"notadate"` row. -/
theorem c3_unresolved_row_dropped_witness :
    (⟨["2024-03-01", "2414"], ⟨2024, 3, 1⟩, "2414", some "2", some "4", 3, 1, ⟨2024, 3, 1⟩⟩
        : Record).raw ≠ ["notadate", "2415"] :=
  c3_unresolved_row_dropped ["날짜", "학번"]
    [["2024-03-01", "2414"], ["notadate", "2415"]] ["notadate", "2415"]
    ⟨["날짜", "학번"],
     [⟨["2024-03-01", "2414"], ⟨2024, 3, 1⟩, "2414", some "2", some "4", 3, 1, ⟨2024, 3, 1⟩⟩]⟩
    (by decide) (by decide)
    ⟨["2024-03-01", "2414"], ⟨2024, 3, 1⟩, "2414", some "2", some "4", 3, 1, ⟨2024, 3, 1⟩⟩
    (by decide)

/-- Counterexample for C4: a row whose identifier cell is blank is kept
in the built table (with absent grade/class), and it does appear in a
query result — the day-exact view for its date returns it —
contradicting "removed from the built Table entirely and appears in no
query result". -/
theorem c4_blank_id_counterexample :
    load_data [["날짜", "학번"], ["2024-03-01", ""]]
      = BuildResult.table ⟨["날짜", "학번"],
          [⟨["2024-03-01", ""], ⟨2024, 3, 1⟩, "", none, none, 3, 1, ⟨2024, 3, 1⟩⟩]⟩
    ∧ (⟨["2024-03-01", ""], ⟨2024, 3, 1⟩, "", none, none, 3, 1, ⟨2024, 3, 1⟩⟩ : Record)
        ∈ byExactDay ⟨["날짜", "학번"],
            [⟨["2024-03-01", ""], ⟨2024, 3, 1⟩, "", none, none, 3, 1, ⟨2024, 3, 1⟩⟩]⟩ 3 1 := by
  decide

/-- Claim C4 (corrected, amended part): a retained record whose stripped
identifier is empty has absent grade and class columns, and therefore
never matches any grade/class mask — it is excluded from the
group-filtered views, though it remains in the table and in date-only
views. -/
theorem c4_blank_id_retained_no_group_match (values : List (List String)) (t : Table)
    (r : Record) (g c : String)
    (ht : load_data values = BuildResult.table t) (hr : r ∈ t.records)
    (hid : r.studentId = "") :
    r.grade = none ∧ r.classNo = none ∧ classMask r g c = false := by
  obtain ⟨hdrRow, dataRows, -, -, hrecs⟩ := load_data_table_inv ht
  rw [hrecs] at hr
  obtain ⟨row, -, hm⟩ := List.mem_filterMap.mp hr
  obtain ⟨-, -, -, hg, hc, -⟩ := mkRecord_some_inv hm
  rw [hid] at hg hc
  rw [show ("" : String).data = [] from rfl] at hg hc
  simp only [List.getElem?_nil, Option.map_none'] at hg hc
  exact ⟨hg, hc, by simp [classMask, hg, hc]⟩

/-- Witness for C4's amended claim, at the counterexample's grid. -/
theorem c4_blank_id_retained_no_group_match_witness :
    (⟨["2024-03-01", ""], ⟨2024, 3, 1⟩, "", none, none, 3, 1, ⟨2024, 3, 1⟩⟩ : Record).grade = none
    ∧ (⟨["2024-03-01", ""], ⟨2024, 3, 1⟩, "", none, none, 3, 1, ⟨2024, 3, 1⟩⟩ : Record).classNo = none
    ∧ classMask ⟨["2024-03-01", ""], ⟨2024, 3, 1⟩, "", none, none, 3, 1, ⟨2024, 3, 1⟩⟩ "2" "4"
        = false :=
  c4_blank_id_retained_no_group_match [["날짜", "학번"], ["2024-03-01", ""]]
    ⟨["날짜", "학번"], [⟨["2024-03-01", ""], ⟨2024, 3, 1⟩, "", none, none, 3, 1, ⟨2024, 3, 1⟩⟩]⟩
    ⟨["2024-03-01", ""], ⟨2024, 3, 1⟩, "", none, none, 3, 1, ⟨2024, 3, 1⟩⟩ "2" "4"
    (by decide) (by decide) (by decide)

/-- Claim C8 (confirmed): the week view's date filter is inclusive on
both endpoints — a record matching the grade/class mask is in the range
view exactly when its calendar date lies between the start and the end
date, both compared inclusively. -/
theorem c8_byDateRange_inclusive (t : Table) (s e : Date) (g c : String) (r : Record)
    (hr : r ∈ t.records) (hg : r.grade = some g) (hc : r.classNo = some c) :
    (r ∈ byDateRange t s e g c)
      ↔ (Date.le s r.dateOnly = true ∧ Date.le r.dateOnly e = true) := by
  simp [byDateRange, List.mem_filter, hr, classMask, hg, hc]

/-- Witness for C8 at the spec's example dates: for the range 2024-03-01
.. 2024-03-07, a record dated exactly 2024-03-07 is included and a
record dated 2024-03-08 is excluded. -/
theorem c8_byDateRange_inclusive_witness :
    ((⟨["2024-03-07", "2414"], ⟨2024, 3, 7⟩, "2414", some "2", some "4", 3, 7, ⟨2024, 3, 7⟩⟩ : Record)
      ∈ byDateRange
        ⟨["날짜", "학번"],
         [⟨["2024-03-07", "2414"], ⟨2024, 3, 7⟩, "2414", some "2", some "4", 3, 7, ⟨2024, 3, 7⟩⟩,
          ⟨["2024-03-08", "2414"], ⟨2024, 3, 8⟩, "2414", some "2", some "4", 3, 8, ⟨2024, 3, 8⟩⟩]⟩
        ⟨2024, 3, 1⟩ ⟨2024, 3, 7⟩ "2" "4")
    ∧ ¬((⟨["2024-03-08", "2414"], ⟨2024, 3, 8⟩, "2414", some "2", some "4", 3, 8, ⟨2024, 3, 8⟩⟩ : Record)
      ∈ byDateRange
        ⟨["날짜", "학번"],
         [⟨["2024-03-07", "2414"], ⟨2024, 3, 7⟩, "2414", some "2", some "4", 3, 7, ⟨2024, 3, 7⟩⟩,
          ⟨["2024-03-08", "2414"], ⟨2024, 3, 8⟩, "2414", some "2", some "4", 3, 8, ⟨2024, 3, 8⟩⟩]⟩
        ⟨2024, 3, 1⟩ ⟨2024, 3, 7⟩ "2" "4") := by
  constructor
  · exact (c8_byDateRange_inclusive
      ⟨["날짜", "학번"],
       [⟨["2024-03-07", "2414"], ⟨2024, 3, 7⟩, "2414", some "2", some "4", 3, 7, ⟨2024, 3, 7⟩⟩,
        ⟨["2024-03-08", "2414"], ⟨2024, 3, 8⟩, "2414", some "2", some "4", 3, 8, ⟨2024, 3, 8⟩⟩]⟩
      ⟨2024, 3, 1⟩ ⟨2024, 3, 7⟩ "2" "4"
      ⟨["2024-03-07", "2414"], ⟨2024, 3, 7⟩, "2414", some "2", some "4", 3, 7, ⟨2024, 3, 7⟩⟩
      (by decide) (by decide) (by decide)).mpr (by decide)
  · intro hmem
    have h := (c8_byDateRange_inclusive
      ⟨["날짜", "학번"],
       [⟨["2024-03-07", "2414"], ⟨2024, 3, 7⟩, "2414", some "2", some "4", 3, 7, ⟨2024, 3, 7⟩⟩,
        ⟨["2024-03-08", "2414"], ⟨2024, 3, 8⟩, "2414", some "2", some "4", 3, 8, ⟨2024, 3, 8⟩⟩]⟩
      ⟨2024, 3, 1⟩ ⟨2024, 3, 7⟩ "2" "4"
      ⟨["2024-03-08", "2414"], ⟨2024, 3, 8⟩, "2414", some "2", some "4", 3, 8, ⟨2024, 3, 8⟩⟩
      (by decide) (by decide) (by decide)).mp hmem
    exact absurd h.2 (by decide)

/-- Counterexample for C9: the day view is sorted by the parsed date
column, not by the raw date text. Both cells of the grid are padding
variants of the one slash format `%m/%d/%Y` — `"3/1/2024"` (parsed
2024-03-01) and `"03/01/2025"` (parsed 2025-03-01) — so the column
parses the same way whether pandas infers that single format from the
first cell and applies it column-wide (pandas 2.x) or parses each cell
flexibly. Both records match month 3 / day 1; the code returns them in
chronological order of the parsed dates with the `"3/1/2024"` row
first, yet the raw text `"03/01/2025"` sorts lexically before
`"3/1/2024"` — so the output is not sorted by raw date ascending and
differs from the order the claim dictates. -/
theorem c9_sort_key_counterexample :
    load_data [["날짜", "학번"], ["3/1/2024", "2414"], ["03/01/2025", "2415"]]
      = BuildResult.table ⟨["날짜", "학번"],
          [⟨["3/1/2024", "2414"], ⟨2024, 3, 1⟩, "2414", some "2", some "4", 3, 1, ⟨2024, 3, 1⟩⟩,
           ⟨["03/01/2025", "2415"], ⟨2025, 3, 1⟩, "2415", some "2", some "4", 3, 1, ⟨2025, 3, 1⟩⟩]⟩
    ∧ (byExactDay ⟨["날짜", "학번"],
          [⟨["3/1/2024", "2414"], ⟨2024, 3, 1⟩, "2414", some "2", some "4", 3, 1, ⟨2024, 3, 1⟩⟩,
           ⟨["03/01/2025", "2415"], ⟨2025, 3, 1⟩, "2415", some "2", some "4", 3, 1, ⟨2025, 3, 1⟩⟩]⟩
          3 1).map (fun r => getCol ["날짜", "학번"] r.raw DATE_COL)
        = ["3/1/2024", "03/01/2025"]
    ∧ lexLtChars "03/01/2025".data "3/1/2024".data = true := by
  decide

/-- Claim C9 (corrected, amended part): the day view returns the records
matching the selected month/day (and the morning filter when the
time-of-day column exists) sorted ascending by the parsed date column —
the key of `sort_values(DATE_COL)` — as a permutation of the matching
rows; the relative order of records with equal parsed dates is whatever
the sorting algorithm produces, not a guaranteed original order. -/
theorem c9_byExactDay_sorted_parsed (t : Table) (m d : Nat) :
    List.Sorted recordDateLe (byExactDay t m d)
    ∧ (byExactDay t m d).Perm (exactDayFilter t m d) :=
  ⟨List.sorted_insertionSort recordDateLe (exactDayFilter t m d),
   List.perm_insertionSort recordDateLe (exactDayFilter t m d)⟩

/-- Claim C10 (confirmed): every record retained by a successful build
has a present canonical date — the successful parse of its own date
cell — and the derived month (`월`), day (`일`) and date-only
(`date_only`) columns equal exactly that date's components. -/
theorem c10_derived_date_fields (values : List (List String)) (t : Table) (r : Record)
    (ht : load_data values = BuildResult.table t) (hr : r ∈ t.records) :
    parseDate (getCol t.header r.raw DATE_COL) = some r.date
    ∧ r.month = r.date.month ∧ r.day = r.date.day ∧ r.dateOnly = r.date := by
  obtain ⟨hdrRow, dataRows, -, hh, hrecs⟩ := load_data_table_inv ht
  rw [hrecs] at hr
  obtain ⟨row, -, hm⟩ := List.mem_filterMap.mp hr
  obtain ⟨hraw, hparse, -, -, -, hmo, hda, hdo⟩ := mkRecord_some_inv hm
  subst hraw
  rw [hh]
  exact ⟨hparse, hmo, hda, hdo⟩

/-- Witness for C10 at a concrete single-row grid. -/
theorem c10_derived_date_fields_witness :
    parseDate (getCol
        (Table.mk ["날짜", "학번"]
          [⟨["2024-03-01", "2414"], ⟨2024, 3, 1⟩, "2414", some "2", some "4", 3, 1, ⟨2024, 3, 1⟩⟩]).header
        ["2024-03-01", "2414"] DATE_COL)
      = some ⟨2024, 3, 1⟩
    ∧ (3 : Nat) = 3 ∧ (1 : Nat) = 1 ∧ (⟨2024, 3, 1⟩ : Date) = ⟨2024, 3, 1⟩ :=
  c10_derived_date_fields [["날짜", "학번"], ["2024-03-01", "2414"]]
    (Table.mk ["날짜", "학번"]
      [⟨["2024-03-01", "2414"], ⟨2024, 3, 1⟩, "2414", some "2", some "4", 3, 1, ⟨2024, 3, 1⟩⟩])
    ⟨["2024-03-01", "2414"], ⟨2024, 3, 1⟩, "2414", some "2", some "4", 3, 1, ⟨2024, 3, 1⟩⟩
    (by decide) (by decide)
